import Mathlib

/-!
Shallow embedding of `src/main.py` (books-lambda): a Flask CRUD service over a
`books` table, instrumented with OpenTelemetry metrics and a probabilistic
latency fault injector.  Pure Python functions become Lean functions; the
database and the random number generator become explicit oracle inputs; metric
emission becomes an explicit list of emitted events returned by each handler;
database side effects become explicit state passing of a `DbState`.
-/

/-- JSON values, the result of Flask `request.get_json()`.  `null` stands for
Python `None` (the parse of the JSON literal `null`). -/
inductive JsonVal : Type
  | null : JsonVal
  | bool : Bool → JsonVal
  | num : ℚ → JsonVal
  | str : String → JsonVal
  | arr : List JsonVal → JsonVal
  | obj : List (String × JsonVal) → JsonVal

/-- Python label dictionaries are modelled as insertion-ordered association
lists of string keys and string values (metric label values such as `True`
or a status code are rendered to strings). -/
abbrev LabelMap := List (String × String)

/-- Python dict insertion: overwrite the value in place when the key exists,
append at the end otherwise. -/
def dictInsert (m : LabelMap) (k v : String) : LabelMap :=
  if m.any (fun p => p.1 = k) then
    m.map (fun p => if p.1 = k then (k, v) else p)
  else
    m ++ [(k, v)]

/-- The Python dict-literal merge `\x7b**m1, **m2\x7d`: start from `m1` and insert
every pair of `m2` in order. -/
def dictMerge (m1 m2 : LabelMap) : LabelMap :=
  m2.foldl (fun acc p => dictInsert acc p.1 p.2) m1

/-- Dictionary lookup (first entry with the key; Python dicts never hold a key
twice, so first = only). -/
def dictGet (m : LabelMap) (k : String) : Option String :=
  (m.find? (fun p => p.1 = k)).map (fun p => p.2)

/-- `WORKLOAD = "books-flask"` from `src/main.py`. -/
def WORKLOAD : String := "books-flask"

/-- `BASE_LABELS = \x7b"workload": WORKLOAD\x7d` from `src/main.py`. -/
def BASE_LABELS : LabelMap := [("workload", WORKLOAD)]

/-- `_labels(**kwargs)` from `src/main.py`: merge base labels with per-call
labels. -/
def mkLabels (kwargs : LabelMap) : LabelMap := dictMerge BASE_LABELS kwargs

/-- One recorded measurement: instrument name, value, labels. -/
structure MetricEvent : Type where
  name : String
  value : ℚ
  labels : LabelMap

/-- Which telemetry instruments are initialized.  In `src/main.py` every
instrument is created when `meter` is non-null and every instrument is `None`
otherwise; each emission site guards on its own instrument. -/
structure Instruments : Type where
  db_connection_duration : Bool
  db_query_duration : Bool
  app_error_counter : Bool
  latency_injection_counter : Bool
  latency_injection_duration : Bool
  books_result_count : Bool
  book_operations_counter : Bool

/-- All instruments initialized (the `if meter:` branch). -/
def allInstruments : Instruments := ⟨true, true, true, true, true, true, true⟩

/-- No instrument initialized (the `else` branch: `meter` is null and every
instrument is `None`). -/
def noInstruments : Instruments := ⟨false, false, false, false, false, false, false⟩

/-- A persisted book row.  Timestamps are carried as their ISO-8601 renderings
(`None` for SQL NULL), since the handlers only ever serialise them. -/
structure Book : Type where
  id : ℤ
  title : String
  author : String
  isbn : String
  description : String
  price : ℚ
  created_at : Option String
  updated_at : Option String

/-- The books table plus the sequence backing the generated id column. -/
structure DbState : Type where
  books : List Book
  nextId : ℤ

/-- Database actions a handler performs, in order: used to state that a path
never touches the database. -/
inductive DbAction : Type
  | connect : DbAction
  | exec : String → DbAction
  | commit : DbAction
deriving DecidableEq

/-- What the external database does on this request's (single) connection and
(single) statement. -/
inductive DbFault : Type
  | ok : DbFault
  | connFail : DbFault
  | integrityFail : DbFault
  | queryFail : DbFault
deriving DecidableEq

/-- Per-request environment oracle: the database fault for this request, the
measured wall-clock durations, the timestamp the database would stamp, and the
rendering `str(e)` of whatever exception the failing path raises. -/
structure DbEnv : Type where
  fault : DbFault
  connMs : ℚ
  queryMs : ℚ
  now : String
  errMsg : String

/-- A handler's observable outcome: HTTP status, JSON body, emitted metric
events in order, and database actions in order. -/
structure HandlerOut : Type where
  status : ℕ
  body : JsonVal
  metrics : List MetricEvent
  trace : List DbAction

/-- Outcome of `cursor.execute` as classified by the handlers' `except`
clauses: success, `psycopg2.IntegrityError`, or any other exception. -/
inductive QueryOutcome : Type
  | ok : QueryOutcome
  | integrity : QueryOutcome
  | failed : QueryOutcome
deriving DecidableEq

/-- `get_db_connection()` from `src/main.py`: on success record the connection
duration; on failure record the duration with `error=True` plus one
`app.errors` count labelled `error.type=database_connection` and
`http.route=request.path` (the concrete request path, with no method and no
status-code label), then re-raise.  Returns the emitted events and whether the
connection succeeded. -/
def get_db_connection (inst : Instruments) (env : DbEnv) (path : String) :
    List MetricEvent × Bool :=
  if env.fault = DbFault.connFail then
    ((if inst.db_connection_duration then
        [⟨"db.client.connection.duration", env.connMs,
          mkLabels [("db.system", "postgresql"), ("error", "True")]⟩]
      else []) ++
     (if inst.app_error_counter then
        [⟨"app.errors", 1,
          mkLabels [("error.type", "database_connection"), ("http.route", path)]⟩]
      else []), false)
  else
    ((if inst.db_connection_duration then
        [⟨"db.client.connection.duration", env.connMs,
          mkLabels [("db.system", "postgresql")]⟩]
      else []), true)

/-- `execute_query(cursor, query, params, operation)` from `src/main.py`:
record the query duration labelled with the operation, adding `error=True` and
re-raising on failure.  The statement's effect on `DbState` is applied by the
caller on the `ok` outcome. -/
def execute_query (inst : Instruments) (env : DbEnv) (operation : String) :
    List MetricEvent × QueryOutcome :=
  match env.fault with
  | DbFault.integrityFail =>
      ((if inst.db_query_duration then
          [⟨"db.client.query.duration", env.queryMs,
            mkLabels [("db.system", "postgresql"), ("db.operation", operation),
                      ("error", "True")]⟩]
        else []), QueryOutcome.integrity)
  | DbFault.queryFail =>
      ((if inst.db_query_duration then
          [⟨"db.client.query.duration", env.queryMs,
            mkLabels [("db.system", "postgresql"), ("db.operation", operation),
                      ("error", "True")]⟩]
        else []), QueryOutcome.failed)
  | _ =>
      ((if inst.db_query_duration then
          [⟨"db.client.query.duration", env.queryMs,
            mkLabels [("db.system", "postgresql"), ("db.operation", operation)]⟩]
        else []), QueryOutcome.ok)

/-- `_record_error(error_type, http_route, http_status_code, http_method)`
from `src/main.py` (default `http_method="GET"` is passed explicitly at call
sites here). -/
def recordError (inst : Instruments) (error_type http_route : String)
    (http_status_code : ℕ) (http_method : String) : List MetricEvent :=
  if inst.app_error_counter then
    [⟨"app.errors", 1,
      mkLabels [("error.type", error_type), ("http.route", http_route),
                ("http.status_code", toString http_status_code),
                ("http.method", http_method)]⟩]
  else []

/-- `_record_operation(operation, http_route, http_method)` from
`src/main.py`. -/
def recordOperation (inst : Instruments) (operation http_route http_method : String) :
    List MetricEvent :=
  if inst.book_operations_counter then
    [⟨"app.books.operations", 1,
      mkLabels [("operation", operation), ("http.route", http_route),
                ("http.method", http_method)]⟩]
  else []

/-- `_serialise_book(book)` from `src/main.py`: timestamps are already carried
as ISO strings, absent ones serialise to JSON null. -/
def serialise_book (b : Book) : JsonVal :=
  JsonVal.obj
    [("id", JsonVal.num (b.id : ℚ)),
     ("title", JsonVal.str b.title),
     ("author", JsonVal.str b.author),
     ("isbn", JsonVal.str b.isbn),
     ("description", JsonVal.str b.description),
     ("price", JsonVal.num b.price),
     ("created_at", match b.created_at with
        | some s => JsonVal.str s
        | none => JsonVal.null),
     ("updated_at", match b.updated_at with
        | some s => JsonVal.str s
        | none => JsonVal.null)]

/-- Python `field in data` (membership test).  Dicts test keys, lists test
element equality with the string, strings test substring; on `None`, booleans
and numbers Python raises `TypeError` ("argument ... is not iterable"),
modelled as `Except.error`. -/
def pyContains (field : String) (data : JsonVal) : Except Unit Bool :=
  match data with
  | JsonVal.obj kvs => Except.ok (kvs.any (fun p => p.1 = field))
  | JsonVal.arr xs =>
      Except.ok (xs.any (fun v => match v with
        | JsonVal.str s => s = field
        | _ => false))
  | JsonVal.str s => Except.ok ((s.splitOn field).length > 1)
  | _ => Except.error ()

/-- Python `data[field]` subscription: dict key lookup; everything else raises
`TypeError` (list/str indices must be integers) — the handlers only subscript
after a successful membership test, so the dict key is always present. -/
def pyGetItem (data : JsonVal) (field : String) : Except Unit JsonVal :=
  match data with
  | JsonVal.obj kvs =>
      match kvs.find? (fun p => p.1 = field) with
      | some p => Except.ok p.2
      | none => Except.error ()
  | _ => Except.error ()

/-- Python `float(v)` on a JSON value: numbers pass through, booleans coerce
to 0/1, everything else raises.  (Numeric strings, which Python would parse,
are modelled as raising; no handler property here depends on string-encoded
prices.) -/
def pyFloat (v : JsonVal) : Except Unit ℚ :=
  match v with
  | JsonVal.num q => Except.ok q
  | JsonVal.bool b => Except.ok (if b then 1 else 0)
  | _ => Except.error ()

/-- Rendering of an arbitrary JSON value into a text column, used only when an
update writes a non-string JSON value into a string field of the model row;
its exact form is irrelevant to every stated property. -/
def JsonVal.render : JsonVal → String
  | JsonVal.null => "None"
  | JsonVal.bool b => if b then "True" else "False"
  | JsonVal.num q => toString q
  | JsonVal.str s => s
  | JsonVal.arr _ => "[...]"
  | JsonVal.obj _ => "dict"

/-- `SELECT ... WHERE id = %s` with `fetchone`. -/
def DbState.findBook (st : DbState) (id : ℤ) : Option Book :=
  st.books.find? (fun b => b.id = id)

/-- `INSERT INTO books ... RETURNING ...`: stamp both timestamps, assign the
next generated id, return the created row and the new table. -/
def DbState.insertBook (st : DbState) (t a i d : String) (p : ℚ) (now : String) :
    Book × DbState :=
  let b : Book := ⟨st.nextId, t, a, i, d, p, some now, some now⟩
  (b, ⟨st.books ++ [b], st.nextId + 1⟩)

/-- Apply one `field = %s` assignment of the UPDATE's SET clause to a row. -/
def applyUpdate (b : Book) (u : String × JsonVal) : Book :=
  if u.1 = "title" then { b with title := u.2.render }
  else if u.1 = "author" then { b with author := u.2.render }
  else if u.1 = "isbn" then { b with isbn := u.2.render }
  else if u.1 = "description" then { b with description := u.2.render }
  else if u.1 = "price" then
    { b with price := match u.2 with | JsonVal.num q => q | _ => b.price }
  else b

/-- `UPDATE books SET ..., updated_at = CURRENT_TIMESTAMP WHERE id = %s
RETURNING ...` with `fetchone`: the updated row when the id matches, `none`
otherwise. -/
def DbState.updateBook (st : DbState) (id : ℤ) (us : List (String × JsonVal))
    (now : String) : Option Book × DbState :=
  match st.books.find? (fun b => b.id = id) with
  | none => (none, st)
  | some b =>
      let b' : Book := { us.foldl applyUpdate b with updated_at := some now }
      (some b', ⟨st.books.map (fun x => if x.id = id then b' else x), st.nextId⟩)

/-- `DELETE FROM books WHERE id = %s RETURNING id` with `fetchone`. -/
def DbState.deleteBook (st : DbState) (id : ℤ) : Option ℤ × DbState :=
  match st.books.find? (fun b => b.id = id) with
  | none => (none, st)
  | some b => (some b.id, ⟨st.books.filter (fun x => x.id != id), st.nextId⟩)

/-- Insertion step of the `ORDER BY id` sort. -/
def insertById (b : Book) : List Book → List Book
  | [] => [b]
  | x :: xs => if b.id ≤ x.id then b :: x :: xs else x :: insertById b xs

/-- `SELECT ... FROM books ORDER BY id` with `fetchall`. -/
def sortById : List Book → List Book
  | [] => []
  | x :: xs => insertById x (sortById xs)

/-- `required_fields = ["title", "author", "isbn", "description", "price"]`
from `create_book`; the same list drives `update_book`'s field loop. -/
def required_fields : List String :=
  ["title", "author", "isbn", "description", "price"]

/-- The `for field in required_fields: if field not in data` loop of
`create_book`: the first field whose membership test is false, or a raised
`TypeError` when a membership test raises. -/
def firstMissing (data : JsonVal) : List String → Except Unit (Option String)
  | [] => Except.ok none
  | f :: fs =>
      match pyContains f data with
      | Except.error e => Except.error e
      | Except.ok true => firstMissing data fs
      | Except.ok false => Except.ok (some f)

/-- Evaluation of `create_book`'s INSERT parameter tuple
`(data["title"], ..., float(data["price"]))`, which happens after the
connection is opened and before the statement runs. -/
def createArgs (data : JsonVal) :
    Except Unit (JsonVal × JsonVal × JsonVal × JsonVal × ℚ) := do
  let t ← pyGetItem data "title"
  let a ← pyGetItem data "author"
  let i ← pyGetItem data "isbn"
  let d ← pyGetItem data "description"
  let p ← pyGetItem data "price"
  let pf ← pyFloat p
  return (t, a, i, d, pf)

/-- The field-collection loop of `update_book`: for each recognized field
present in the body, the pair of field name and bound value (`float(...)`
applied for `price`); membership tests and extraction can raise. -/
def collectUpdates (data : JsonVal) : List String → Except Unit (List (String × JsonVal))
  | [] => Except.ok []
  | f :: fs =>
      match pyContains f data with
      | Except.error e => Except.error e
      | Except.ok false => collectUpdates data fs
      | Except.ok true =>
          match pyGetItem data f with
          | Except.error e => Except.error e
          | Except.ok v =>
              if f = "price" then
                match pyFloat v with
                | Except.error e => Except.error e
                | Except.ok q =>
                    match collectUpdates data fs with
                    | Except.error e => Except.error e
                    | Except.ok rest => Except.ok ((f, JsonVal.num q) :: rest)
              else
                match collectUpdates data fs with
                | Except.error e => Except.error e
                | Except.ok rest => Except.ok ((f, v) :: rest)

/-- Body of the 404 not-found responses. -/
def notFoundBody : JsonVal := JsonVal.obj [("error", JsonVal.str "Book not found")]

/-- An `error`/`message` JSON body, `message` being `str(e)`. -/
def errMsgBody (msg errMsg : String) : JsonVal :=
  JsonVal.obj [("error", JsonVal.str msg), ("message", JsonVal.str errMsg)]

/-- `GET /healthz` handler (`health_check` in `src/main.py`). -/
def health_check (inst : Instruments) (env : DbEnv) : HandlerOut :=
  let conn := get_db_connection inst env "/healthz"
  if conn.2 then
    let q := execute_query inst env "health_check"
    match q.2 with
    | QueryOutcome.ok =>
        ⟨200,
         JsonVal.obj [("status", JsonVal.str "healthy"),
                      ("service", JsonVal.str WORKLOAD),
                      ("version", JsonVal.str "2.0.0"),
                      ("database", JsonVal.str "connected")],
         conn.1 ++ q.1, [DbAction.connect, DbAction.exec "health_check"]⟩
    | _ =>
        ⟨500,
         JsonVal.obj [("status", JsonVal.str "unhealthy"),
                      ("service", JsonVal.str WORKLOAD),
                      ("version", JsonVal.str "2.0.0"),
                      ("database", JsonVal.str "disconnected"),
                      ("error", JsonVal.str env.errMsg)],
         conn.1 ++ q.1 ++ recordError inst "health_check" "/healthz" 500 "GET",
         [DbAction.connect, DbAction.exec "health_check"]⟩
  else
    ⟨500,
     JsonVal.obj [("status", JsonVal.str "unhealthy"),
                  ("service", JsonVal.str WORKLOAD),
                  ("version", JsonVal.str "2.0.0"),
                  ("database", JsonVal.str "disconnected"),
                  ("error", JsonVal.str env.errMsg)],
     conn.1 ++ recordError inst "health_check" "/healthz" 500 "GET",
     [DbAction.connect]⟩

/-- `GET /test` handler (`test_endpoint` in `src/main.py`): static body, no
database, no metrics. -/
def test_endpoint : HandlerOut :=
  ⟨200,
   JsonVal.obj [("status", JsonVal.str "ok"),
                ("message", JsonVal.str "Test endpoint working"),
                ("service", JsonVal.str WORKLOAD),
                ("version", JsonVal.str "2.0.0")],
   [], []⟩

/-- `GET /books` handler (`get_books` in `src/main.py`). -/
def get_books (inst : Instruments) (env : DbEnv) (st : DbState) :
    HandlerOut × DbState :=
  let conn := get_db_connection inst env "/books"
  if conn.2 then
    let q := execute_query inst env "select"
    match q.2 with
    | QueryOutcome.ok =>
        let result := (sortById st.books).map serialise_book
        (⟨200, JsonVal.arr result,
          conn.1 ++ q.1 ++
          (if inst.books_result_count then
            [⟨"app.books.result_count", (result.length : ℚ),
              mkLabels [("http.route", "/books"), ("http.method", "GET")]⟩]
           else []) ++
          recordOperation inst "list" "/books" "GET",
          [DbAction.connect, DbAction.exec "select"]⟩, st)
    | _ =>
        (⟨500, errMsgBody "Failed to get books" env.errMsg,
          conn.1 ++ q.1 ++ recordError inst "database_query" "/books" 500 "GET",
          [DbAction.connect, DbAction.exec "select"]⟩, st)
  else
    (⟨500, errMsgBody "Failed to get books" env.errMsg,
      conn.1 ++ recordError inst "database_query" "/books" 500 "GET",
      [DbAction.connect]⟩, st)

/-- `GET /books/<int:book_id>` handler (`get_book` in `src/main.py`).  The
`"get"` operation count is recorded before the found/not-found branch; the
404 path records no error metric. -/
def get_book (inst : Instruments) (env : DbEnv) (st : DbState) (book_id : ℤ) :
    HandlerOut × DbState :=
  let conn := get_db_connection inst env ("/books/" ++ toString book_id)
  if conn.2 then
    let q := execute_query inst env "select"
    match q.2 with
    | QueryOutcome.ok =>
        let ms := conn.1 ++ q.1 ++ recordOperation inst "get" "/books/<id>" "GET"
        match st.findBook book_id with
        | some b =>
            (⟨200, serialise_book b, ms,
              [DbAction.connect, DbAction.exec "select"]⟩, st)
        | none =>
            (⟨404, notFoundBody, ms,
              [DbAction.connect, DbAction.exec "select"]⟩, st)
    | _ =>
        (⟨500, errMsgBody "Failed to get book" env.errMsg,
          conn.1 ++ q.1 ++ recordError inst "database_query" "/books/<id>" 500 "GET",
          [DbAction.connect, DbAction.exec "select"]⟩, st)
  else
    (⟨500, errMsgBody "Failed to get book" env.errMsg,
      conn.1 ++ recordError inst "database_query" "/books/<id>" 500 "GET",
      [DbAction.connect]⟩, st)

/-- `POST /books` handler (`create_book` in `src/main.py`).  Validation runs
before any database work; a membership-test `TypeError` falls into the generic
`except Exception` (500, `database_query`); `psycopg2.IntegrityError` maps to
409. -/
def create_book (inst : Instruments) (env : DbEnv) (st : DbState)
    (data : JsonVal) : HandlerOut × DbState :=
  match firstMissing data required_fields with
  | Except.error _ =>
      (⟨500, errMsgBody "Failed to create book" env.errMsg,
        recordError inst "database_query" "/books" 500 "POST", []⟩, st)
  | Except.ok (some f) =>
      (⟨400, JsonVal.obj [("error", JsonVal.str "Missing required field"),
                          ("field", JsonVal.str f)],
        recordError inst "validation" "/books" 400 "POST", []⟩, st)
  | Except.ok none =>
      let conn := get_db_connection inst env "/books"
      if conn.2 then
        match createArgs data with
        | Except.error _ =>
            (⟨500, errMsgBody "Failed to create book" env.errMsg,
              conn.1 ++ recordError inst "database_query" "/books" 500 "POST",
              [DbAction.connect]⟩, st)
        | Except.ok (t, a, i, d, p) =>
            let q := execute_query inst env "insert"
            match q.2 with
            | QueryOutcome.integrity =>
                (⟨409, errMsgBody "Book with this ISBN already exists" env.errMsg,
                  conn.1 ++ q.1 ++
                  recordError inst "integrity_violation" "/books" 409 "POST",
                  [DbAction.connect, DbAction.exec "insert"]⟩, st)
            | QueryOutcome.failed =>
                (⟨500, errMsgBody "Failed to create book" env.errMsg,
                  conn.1 ++ q.1 ++
                  recordError inst "database_query" "/books" 500 "POST",
                  [DbAction.connect, DbAction.exec "insert"]⟩, st)
            | QueryOutcome.ok =>
                let r := st.insertBook t.render a.render i.render d.render p env.now
                (⟨201, serialise_book r.1,
                  conn.1 ++ q.1 ++ recordOperation inst "create" "/books" "POST",
                  [DbAction.connect, DbAction.exec "insert", DbAction.commit]⟩, r.2)
      else
        (⟨500, errMsgBody "Failed to create book" env.errMsg,
          conn.1 ++ recordError inst "database_query" "/books" 500 "POST",
          [DbAction.connect]⟩, st)

/-- `PUT /books/<int:book_id>` handler (`update_book` in `src/main.py`).  The
field loop (membership, extraction, `float` for price) runs before the
no-fields check and before any database work; `conn.commit()` runs even when
no row matched; the 404 path records no error metric. -/
def update_book (inst : Instruments) (env : DbEnv) (st : DbState)
    (book_id : ℤ) (data : JsonVal) : HandlerOut × DbState :=
  match collectUpdates data required_fields with
  | Except.error _ =>
      (⟨500, errMsgBody "Failed to update book" env.errMsg,
        recordError inst "database_query" "/books/<id>" 500 "PUT", []⟩, st)
  | Except.ok [] =>
      (⟨400, JsonVal.obj [("error", JsonVal.str "No fields to update")],
        recordError inst "validation" "/books/<id>" 400 "PUT", []⟩, st)
  | Except.ok (u :: us) =>
      let conn := get_db_connection inst env ("/books/" ++ toString book_id)
      if conn.2 then
        let q := execute_query inst env "update"
        match q.2 with
        | QueryOutcome.integrity =>
            (⟨409, errMsgBody "Book with this ISBN already exists" env.errMsg,
              conn.1 ++ q.1 ++
              recordError inst "integrity_violation" "/books/<id>" 409 "PUT",
              [DbAction.connect, DbAction.exec "update"]⟩, st)
        | QueryOutcome.failed =>
            (⟨500, errMsgBody "Failed to update book" env.errMsg,
              conn.1 ++ q.1 ++
              recordError inst "database_query" "/books/<id>" 500 "PUT",
              [DbAction.connect, DbAction.exec "update"]⟩, st)
        | QueryOutcome.ok =>
            let r := st.updateBook book_id (u :: us) env.now
            let ms := conn.1 ++ q.1 ++ recordOperation inst "update" "/books/<id>" "PUT"
            match r.1 with
            | some b =>
                (⟨200, serialise_book b, ms,
                  [DbAction.connect, DbAction.exec "update", DbAction.commit]⟩, r.2)
            | none =>
                (⟨404, notFoundBody, ms,
                  [DbAction.connect, DbAction.exec "update", DbAction.commit]⟩, r.2)
      else
        (⟨500, errMsgBody "Failed to update book" env.errMsg,
          conn.1 ++ recordError inst "database_query" "/books/<id>" 500 "PUT",
          [DbAction.connect]⟩, st)

/-- `DELETE /books/<int:book_id>` handler (`delete_book` in `src/main.py`).
No `IntegrityError` branch: every statement failure is the generic 500; the
404 path records no error metric; `conn.commit()` runs even when no row
matched. -/
def delete_book (inst : Instruments) (env : DbEnv) (st : DbState)
    (book_id : ℤ) : HandlerOut × DbState :=
  let conn := get_db_connection inst env ("/books/" ++ toString book_id)
  if conn.2 then
    let q := execute_query inst env "delete"
    match q.2 with
    | QueryOutcome.ok =>
        let r := st.deleteBook book_id
        let ms := conn.1 ++ q.1 ++ recordOperation inst "delete" "/books/<id>" "DELETE"
        match r.1 with
        | some _ =>
            (⟨200, JsonVal.obj [("message", JsonVal.str "Book deleted successfully"),
                                ("id", JsonVal.num (book_id : ℚ))], ms,
              [DbAction.connect, DbAction.exec "delete", DbAction.commit]⟩, r.2)
        | none =>
            (⟨404, notFoundBody, ms,
              [DbAction.connect, DbAction.exec "delete", DbAction.commit]⟩, r.2)
    | _ =>
        (⟨500, errMsgBody "Failed to delete book" env.errMsg,
          conn.1 ++ q.1 ++ recordError inst "database_query" "/books/<id>" 500 "DELETE",
          [DbAction.connect, DbAction.exec "delete"]⟩, st)
  else
    (⟨500, errMsgBody "Failed to delete book" env.errMsg,
      conn.1 ++ recordError inst "database_query" "/books/<id>" 500 "DELETE",
      [DbAction.connect]⟩, st)

/-- `LATENCY_PROBABILITY` and `LATENCY_MAX_MS` from `src/main.py`, read from
the environment with the stated defaults. -/
structure FaultConfig : Type where
  prob : ℚ
  maxMs : ℤ

/-- The defaults: `LATENCY_PROBABILITY = 0.05`, `LATENCY_MAX_MS = 1300`. -/
def defaultFaultConfig : FaultConfig := ⟨5 / 100, 1300⟩

/-- Randomness consumed by one `maybe_delay` invocation: the one
`random.random()` draw (a value in `[0,1)`) and a seed driving
`random.randint`. -/
structure RandOracle : Type where
  r : ℚ
  seed : ℕ

/-- `random.randint(a, b)`: a uniform integer in `[a, b]` inclusive, modelled
as `a` plus the seed reduced modulo the size of the range; for `a ≤ b` its
image is exactly `[a, b]`. -/
def randint (a b : ℤ) (seed : ℕ) : ℤ :=
  a + (seed : ℤ) % (b - a + 1)

/-- Result of running a handler under the `maybe_delay` wrapper: the injected
delay in ms when one was taken, the wrapper's own metric events, and the
wrapped handler's result. -/
structure Delayed (β : Type) : Type where
  delay : Option ℤ
  injMetrics : List MetricEvent
  result : β

/-- `maybe_delay(func)` from `src/main.py`: when the uniform draw is strictly
below the configured probability, pick a delay with `randint(100,
LATENCY_MAX_MS)`, record one injection count and one injection duration
(labelled with the request path and method), sleep, then — in every case —
call the wrapped handler once and return its result unchanged. -/
def maybe_delay {α β : Type} (cfg : FaultConfig) (inst : Instruments)
    (o : RandOracle) (path method : String) (f : α → β) (x : α) : Delayed β :=
  if o.r < cfg.prob then
    let delay_ms := randint 100 cfg.maxMs o.seed
    ⟨some delay_ms,
     (if inst.latency_injection_counter then
        [⟨"app.latency_injection.count", 1,
          mkLabels [("http.route", path), ("http.method", method)]⟩]
      else []) ++
     (if inst.latency_injection_duration then
        [⟨"app.latency_injection.duration", (delay_ms : ℚ),
          mkLabels [("http.route", path), ("http.method", method)]⟩]
      else []),
     f x⟩
  else
    ⟨none, [], f x⟩

/-- One inbound request, as dispatched by the Flask routes of `src/main.py`. -/
inductive Request : Type
  | healthz : Request
  | test : Request
  | listBooks : Request
  | getBook : ℤ → Request
  | createBook : JsonVal → Request
  | updateBook : ℤ → JsonVal → Request
  | deleteBook : ℤ → Request

/-- The route table of `src/main.py`: the four GET endpoints are decorated
with `@maybe_delay`; `create_book`, `update_book` and `delete_book` are not. -/
def handle (cfg : FaultConfig) (inst : Instruments) (o : RandOracle)
    (env : DbEnv) (st : DbState) : Request → Delayed (HandlerOut × DbState)
  | Request.healthz =>
      maybe_delay cfg inst o "/healthz" "GET"
        (fun _ => (health_check inst env, st)) ()
  | Request.test =>
      maybe_delay cfg inst o "/test" "GET" (fun _ => (test_endpoint, st)) ()
  | Request.listBooks =>
      maybe_delay cfg inst o "/books" "GET" (fun _ => get_books inst env st) ()
  | Request.getBook id =>
      maybe_delay cfg inst o ("/books/" ++ toString id) "GET"
        (fun _ => get_book inst env st id) ()
  | Request.createBook data => ⟨none, [], create_book inst env st data⟩
  | Request.updateBook id data => ⟨none, [], update_book inst env st id data⟩
  | Request.deleteBook id => ⟨none, [], delete_book inst env st id⟩

/-- All metric events observable for one dispatched request: the wrapper's
injection events followed by the handler's events. -/
def allMetrics (d : Delayed (HandlerOut × DbState)) : List MetricEvent :=
  d.injMetrics ++ d.result.1.metrics

/-- A 2xx status. -/
def is2xx (s : ℕ) : Bool := 200 ≤ s && s < 300

/-- An `app.errors` event carrying all four classification labels: error
type, route, method and status code. -/
def isFullError (e : MetricEvent) : Bool :=
  e.name = "app.errors" &&
  (dictGet e.labels "error.type").isSome &&
  (dictGet e.labels "http.route").isSome &&
  (dictGet e.labels "http.method").isSome &&
  (dictGet e.labels "http.status_code").isSome

/-- Number of fully-labelled `app.errors` events in a list. -/
def fullErrorCount (ms : List MetricEvent) : ℕ :=
  (ms.filter isFullError).length

/-- Number of `app.errors` events whose `error.type` label is `t`. -/
def errorCountOfType (ms : List MetricEvent) (t : String) : ℕ :=
  (ms.filter (fun e => e.name = "app.errors" && dictGet e.labels "error.type" = some t)).length

/-- Number of `app.books.operations` events whose `operation` label is `op`. -/
def operationCount (ms : List MetricEvent) (op : String) : ℕ :=
  (ms.filter (fun e =>
    e.name = "app.books.operations" && dictGet e.labels "operation" = some op)).length

/-- A latency fault-injection event (either of the two injection
instruments). -/
def isInjectionMetric (e : MetricEvent) : Bool :=
  e.name = "app.latency_injection.count" || e.name = "app.latency_injection.duration"

/-- JSON values on which Python's `in` membership test raises `TypeError`
(`None`, booleans, numbers); containers and strings support membership. -/
def nonIterable : JsonVal → Bool
  | JsonVal.null => true
  | JsonVal.bool _ => true
  | JsonVal.num _ => true
  | _ => false

/-- The 404 not-found outcome shared by get-by-id, update and delete. -/
def isBookNotFound (o : HandlerOut) : Bool :=
  o.status = 404 &&
  (match o.body with
   | JsonVal.obj [(k, JsonVal.str s)] => k = "error" && s = "Book not found"
   | _ => false)

/-! Dictionary lemmas about the Python dict-merge used by `_labels`. -/

theorem dictGet_cons (a : String × String) (m : LabelMap) (k : String) :
    dictGet (a :: m) k = if a.1 = k then some a.2 else dictGet m k := by
  by_cases h : a.1 = k <;> simp [dictGet, h]

theorem dictGet_eq_none_of_not_mem (m : LabelMap) (k : String)
    (h : ∀ p ∈ m, ¬ p.1 = k) : dictGet m k = none := by
  induction m with
  | nil => rfl
  | cons a m ih =>
      rw [dictGet_cons, if_neg (h a (List.mem_cons_self a m))]
      exact ih (fun p hp => h p (List.mem_cons_of_mem a hp))

theorem dictGet_map_self (m : LabelMap) (k v : String)
    (hmem : m.any (fun p => p.1 = k) = true) :
    dictGet (m.map (fun p => if p.1 = k then (k, v) else p)) k = some v := by
  induction m with
  | nil => simp at hmem
  | cons a m ih =>
      by_cases ha : a.1 = k
      · simp [List.map_cons, if_pos ha, dictGet_cons]
      · simp only [List.any_cons, decide_eq_false ha, Bool.false_or] at hmem
        rw [List.map_cons, if_neg ha, dictGet_cons, if_neg ha]
        exact ih hmem

theorem dictGet_map_ne (m : LabelMap) (k' v' k : String) (hk : ¬ k' = k) :
    dictGet (m.map (fun p => if p.1 = k' then (k', v') else p)) k = dictGet m k := by
  induction m with
  | nil => rfl
  | cons a m ih =>
      by_cases ha : a.1 = k'
      · rw [List.map_cons, if_pos ha, dictGet_cons, dictGet_cons,
            if_neg hk, if_neg (fun h => hk (ha.symm.trans h))]
        exact ih
      · rw [List.map_cons, if_neg ha, dictGet_cons, dictGet_cons]
        by_cases hak : a.1 = k <;> simp [hak, ih]

theorem dictGet_dictInsert (m : LabelMap) (k' v' k : String) :
    dictGet (dictInsert m k' v') k = if k' = k then some v' else dictGet m k := by
  unfold dictInsert
  split
  · next hmem =>
      by_cases hkk : k' = k
      · subst hkk
        rw [if_pos rfl]
        exact dictGet_map_self m k' v' hmem
      · rw [if_neg hkk]
        exact dictGet_map_ne m k' v' k hkk
  · next hmem =>
      simp only [List.any_eq_true, decide_eq_true_eq, not_exists, not_and] at hmem
      by_cases hkk : k' = k
      · subst hkk
        rw [if_pos rfl, dictGet, List.find?_append,
            show List.find? (fun p => decide (p.1 = k')) m = none from
              List.find?_eq_none.mpr (fun p hp => by
                simpa using fun h => (hmem p hp) h)]
        simp [List.find?]
      · rw [if_neg hkk, dictGet, List.find?_append,
            show List.find? (fun p => decide (p.1 = k)) [(k', v')] = none by
              simp [hkk]]
        rw [Option.or_none]
        rfl

theorem dictGet_dictMerge (m2 m1 : LabelMap) (k : String)
    (h : (m2.map Prod.fst).Nodup) :
    dictGet (dictMerge m1 m2) k = (dictGet m2 k).or (dictGet m1 k) := by
  induction m2 generalizing m1 with
  | nil => simp [dictMerge, dictGet]
  | cons a m2 ih =>
      rw [List.map_cons, List.nodup_cons] at h
      rw [show dictMerge m1 (a :: m2) = dictMerge (dictInsert m1 a.1 a.2) m2 from rfl,
          ih _ h.2, dictGet_dictInsert, dictGet_cons]
      by_cases hak : a.1 = k
      · have hnone : dictGet m2 k = none :=
          dictGet_eq_none_of_not_mem _ _ (fun p hp hpk =>
            h.1 (hak ▸ hpk ▸ List.mem_map_of_mem Prod.fst hp))
        simp [hak, hnone]
      · simp [hak]

/-- C8: every metric emission builds its labels with `_labels`, which merges
the fixed base label set (`workload=books-flask`) with the call-specific
labels; on a key present in both, the call-specific value wins, and a key
present in exactly one of the two maps keeps its value (call-site label
dictionaries are Python dicts, so their keys are distinct). -/
theorem labels_merge_semantics (call : LabelMap) (k : String)
    (h : (call.map Prod.fst).Nodup) :
    (∀ v, dictGet call k = some v → dictGet (mkLabels call) k = some v) ∧
    (dictGet call k = none → dictGet (mkLabels call) k = dictGet BASE_LABELS k) := by
  constructor
  · intro v hv
    unfold mkLabels
    rw [dictGet_dictMerge call BASE_LABELS k h, hv]
    rfl
  · intro hv
    unfold mkLabels
    rw [dictGet_dictMerge call BASE_LABELS k h, hv]
    rfl

/-- Witness for C8 at concrete label maps: a colliding key takes the
call-specific value, a key only in the base map keeps the base value. -/
theorem labels_merge_semantics_witness :
    dictGet (mkLabels [("workload", "other"), ("error.type", "validation")]) "workload"
      = some "other" ∧
    dictGet (mkLabels [("workload", "other"), ("error.type", "validation")]) "missing"
      = dictGet BASE_LABELS "missing" :=
  ⟨(labels_merge_semantics [("workload", "other"), ("error.type", "validation")]
      "workload" (by decide)).1 "other" (by decide),
   (labels_merge_semantics [("workload", "other"), ("error.type", "validation")]
      "missing" (by decide)).2 (by decide)⟩

/-- C9: the fault-injector wrapper always invokes the wrapped handler (once —
its result field is a single application of the wrapped function) and returns
the wrapped handler's result unchanged, whether or not a delay was taken. -/
theorem maybe_delay_preserves_result {α β : Type} (cfg : FaultConfig)
    (inst : Instruments) (o : RandOracle) (path method : String)
    (f : α → β) (x : α) :
    (maybe_delay cfg inst o path method f x).result = f x := by
  unfold maybe_delay
  by_cases h : o.r < cfg.prob <;> simp [h]

/-- C4: a delay is injected exactly when the single uniform draw is strictly
below the configured probability; an injected delay always lies within 100
and `LATENCY_MAX_MS` milliseconds inclusive (given a maximum of at least
100, as the default 1300 is); the defaults are probability 0.05 and maximum
1300 ms. -/
theorem maybe_delay_draw_and_bounds {α β : Type} (cfg : FaultConfig)
    (inst : Instruments) (o : RandOracle) (path method : String)
    (f : α → β) (x : α) (hM : 100 ≤ cfg.maxMs) :
    ((maybe_delay cfg inst o path method f x).delay.isSome ↔ o.r < cfg.prob) ∧
    (∀ d : ℤ, (maybe_delay cfg inst o path method f x).delay = some d →
        100 ≤ d ∧ d ≤ cfg.maxMs) ∧
    defaultFaultConfig.prob = 5 / 100 ∧ defaultFaultConfig.maxMs = 1300 := by
  refine ⟨?_, ?_, rfl, rfl⟩
  · unfold maybe_delay
    by_cases h : o.r < cfg.prob <;> simp [h]
  · intro d hd
    unfold maybe_delay at hd
    by_cases h : o.r < cfg.prob
    · simp only [h, if_true] at hd
      have hd' : randint 100 cfg.maxMs o.seed = d := by simpa using hd
      unfold randint at hd'
      have h2 := Int.emod_nonneg (o.seed : ℤ)
        (by omega : cfg.maxMs - 100 + 1 ≠ 0)
      have h3 := Int.emod_lt_of_pos (o.seed : ℤ)
        (by omega : (0:ℤ) < cfg.maxMs - 100 + 1)
      omega
    · simp [h] at hd

/-- Witness for C4 at the default configuration: with a draw of 0 the delay
is taken and lies in the stated range. -/
theorem maybe_delay_draw_and_bounds_witness :
    ((maybe_delay defaultFaultConfig allInstruments ⟨0, 0⟩ "/books" "GET"
        (fun _ : Unit => (0 : ℕ)) ()).delay.isSome ↔
      (0 : ℚ) < defaultFaultConfig.prob) ∧
    (∀ d : ℤ, (maybe_delay defaultFaultConfig allInstruments ⟨0, 0⟩ "/books" "GET"
        (fun _ : Unit => (0 : ℕ)) ()).delay = some d →
        100 ≤ d ∧ d ≤ defaultFaultConfig.maxMs) := by
  have h := maybe_delay_draw_and_bounds (α := Unit) (β := ℕ) defaultFaultConfig
    allInstruments ⟨0, 0⟩ "/books" "GET" (fun _ => 0) () (by norm_num [defaultFaultConfig])
  exact ⟨h.1, h.2.1⟩

/-! Claims about the validation paths of update and create. -/

theorem collectUpdates_no_fields (kvs : List (String × JsonVal)) (fs : List String)
    (h : ∀ f ∈ fs, (kvs.any (fun p => p.1 = f)) = false) :
    collectUpdates (JsonVal.obj kvs) fs = Except.ok [] := by
  induction fs with
  | nil => rfl
  | cons f fs ih =>
      simp only [collectUpdates]
      rw [show pyContains f (JsonVal.obj kvs) = Except.ok false from by
        simp [pyContains, h f (List.mem_cons_self f fs)]]
      exact ih (fun g hg => h g (List.mem_cons_of_mem f hg))

/-- C2: a PUT whose JSON-object body contains none of the recognized fields
(title, author, isbn, description, price) — for example an empty object or
only unknown keys — yields exactly the 400 No-fields-to-update response with
one validation error metric, an empty database trace (no connection, no
statement), and an unchanged database state. -/
theorem update_book_no_recognized_fields (inst : Instruments) (env : DbEnv)
    (st : DbState) (book_id : ℤ) (kvs : List (String × JsonVal))
    (h : ∀ f ∈ required_fields, (kvs.any (fun p => p.1 = f)) = false) :
    update_book inst env st book_id (JsonVal.obj kvs) =
      (⟨400, JsonVal.obj [("error", JsonVal.str "No fields to update")],
        recordError inst "validation" "/books/<id>" 400 "PUT", []⟩, st) := by
  unfold update_book
  rw [collectUpdates_no_fields kvs required_fields h]

/-- Witness for C2 at a body with only an unknown key. -/
theorem update_book_no_recognized_fields_witness :
    update_book allInstruments ⟨DbFault.ok, 1, 2, "ts", "e"⟩ ⟨[], 1⟩ 5
        (JsonVal.obj [("unknown", JsonVal.null)]) =
      (⟨400, JsonVal.obj [("error", JsonVal.str "No fields to update")],
        recordError allInstruments "validation" "/books/<id>" 400 "PUT", []⟩,
       (⟨[], 1⟩ : DbState)) :=
  update_book_no_recognized_fields allInstruments ⟨DbFault.ok, 1, 2, "ts", "e"⟩
    ⟨[], 1⟩ 5 [("unknown", JsonVal.null)] (by decide)

theorem firstMissing_obj (kvs : List (String × JsonVal)) (fs : List String) :
    firstMissing (JsonVal.obj kvs) fs =
      Except.ok (fs.find? (fun g => !(kvs.any (fun p => p.1 = g)))) := by
  induction fs with
  | nil => rfl
  | cons g fs ih =>
      simp only [firstMissing]
      by_cases hg : kvs.any (fun p => p.1 = g) = true
      · rw [show pyContains g (JsonVal.obj kvs) = Except.ok true from by
          simp [pyContains, hg]]
        rw [List.find?_cons_of_neg _ (by simp [hg])]
        exact ih
      · have hg' : kvs.any (fun p => p.1 = g) = false :=
          Bool.eq_false_iff.mpr hg
        rw [show pyContains g (JsonVal.obj kvs) = Except.ok false from by
          simp [pyContains, hg']]
        rw [List.find?_cons_of_pos _ (by simp [hg'])]

/-- C6: a POST whose JSON-object body lacks a required field yields exactly
the 400 response naming the first missing field in the order title, author,
isbn, description, price, records exactly one validation error metric, and
has an empty database trace (no connection, no statement) with the state
unchanged. -/
theorem create_book_missing_field (inst : Instruments) (env : DbEnv)
    (st : DbState) (kvs : List (String × JsonVal)) (f : String)
    (h : required_fields.find? (fun g => !(kvs.any (fun p => p.1 = g))) = some f) :
    create_book inst env st (JsonVal.obj kvs) =
      (⟨400, JsonVal.obj [("error", JsonVal.str "Missing required field"),
                          ("field", JsonVal.str f)],
        recordError inst "validation" "/books" 400 "POST", []⟩, st) ∧
    errorCountOfType
        (create_book inst env st (JsonVal.obj kvs)).1.metrics "validation"
      = (if inst.app_error_counter then 1 else 0) := by
  have heq : create_book inst env st (JsonVal.obj kvs) =
      (⟨400, JsonVal.obj [("error", JsonVal.str "Missing required field"),
                          ("field", JsonVal.str f)],
        recordError inst "validation" "/books" 400 "POST", []⟩, st) := by
    unfold create_book
    rw [firstMissing_obj, h]
  refine ⟨heq, ?_⟩
  rw [heq]
  unfold errorCountOfType recordError
  split <;>
    simp [mkLabels, dictMerge, dictInsert, dictGet, BASE_LABELS]

/-- Witness for C6: a body holding only `title` is answered 400 naming
`author`, the first missing field, with one validation metric. -/
theorem create_book_missing_field_witness :
    (create_book allInstruments ⟨DbFault.ok, 1, 2, "ts", "e"⟩ ⟨[], 1⟩
        (JsonVal.obj [("title", JsonVal.str "A")])).1.status = 400 ∧
    (create_book allInstruments ⟨DbFault.ok, 1, 2, "ts", "e"⟩ ⟨[], 1⟩
        (JsonVal.obj [("title", JsonVal.str "A")])).1.body
      = JsonVal.obj [("error", JsonVal.str "Missing required field"),
                     ("field", JsonVal.str "author")] ∧
    errorCountOfType (create_book allInstruments ⟨DbFault.ok, 1, 2, "ts", "e"⟩ ⟨[], 1⟩
        (JsonVal.obj [("title", JsonVal.str "A")])).1.metrics "validation" = 1 := by
  have h := create_book_missing_field allInstruments ⟨DbFault.ok, 1, 2, "ts", "e"⟩
    ⟨[], 1⟩ [("title", JsonVal.str "A")] "author" (by decide)
  exact ⟨by rw [h.1], by rw [h.1], by rw [h.2]; rfl⟩

/-- C10 counterexample: the JSON array `[]` is not an object, yet the
membership test does not raise — Python tests list membership — so the
handler answers 400 Missing-required-field, not the 500 the claim asserts
for every non-object body. -/
theorem create_nonobject_counterexample :
    (create_book allInstruments ⟨DbFault.ok, 1, 2, "ts", "e"⟩ ⟨[], 1⟩
        (JsonVal.arr [])).1.status = 400 ∧
    ¬ ((create_book allInstruments ⟨DbFault.ok, 1, 2, "ts", "e"⟩ ⟨[], 1⟩
        (JsonVal.arr [])).1.status = 500) := by
  constructor
  · rfl
  · intro hc
    rw [show (create_book allInstruments ⟨DbFault.ok, 1, 2, "ts", "e"⟩ ⟨[], 1⟩
        (JsonVal.arr [])).1.status = 400 from rfl] at hc
    exact absurd hc (by decide)

/-- C10 (amended): for a POST body on which the membership test raises —
JSON null, a boolean, or a number — the generic exception handler catches
the `TypeError` and the response is 500 Failed-to-create-book with a
`database_query` error metric and an empty database trace; array and string
bodies instead proceed through membership-based validation. -/
theorem create_book_noniterable_500 (inst : Instruments) (env : DbEnv)
    (st : DbState) (data : JsonVal) (h : nonIterable data = true) :
    create_book inst env st data =
      (⟨500, errMsgBody "Failed to create book" env.errMsg,
        recordError inst "database_query" "/books" 500 "POST", []⟩, st) := by
  cases data with
  | null => unfold create_book; rfl
  | bool b => unfold create_book; rfl
  | num q => unfold create_book; rfl
  | str s => simp [nonIterable] at h
  | arr xs => simp [nonIterable] at h
  | obj kvs => simp [nonIterable] at h

/-- Witness for the amended C10 at the JSON literal null. -/
theorem create_book_noniterable_500_witness :
    nonIterable JsonVal.null = true ∧
    (create_book allInstruments ⟨DbFault.ok, 1, 2, "ts", "e"⟩ ⟨[], 1⟩
        JsonVal.null).1.status = 500 ∧
    (create_book allInstruments ⟨DbFault.ok, 1, 2, "ts", "e"⟩ ⟨[], 1⟩
        JsonVal.null).1.trace = [] := by
  have h := create_book_noniterable_500 allInstruments ⟨DbFault.ok, 1, 2, "ts", "e"⟩
    ⟨[], 1⟩ JsonVal.null rfl
  exact ⟨rfl, by rw [h], by rw [h]⟩

/-- C7: when connection and select succeed, get-by-id records exactly one
"get" operation count, and serves 200 with the serialized book when found or
404 Book-not-found otherwise. -/
theorem get_book_always_records_get (inst : Instruments) (env : DbEnv)
    (st : DbState) (book_id : ℤ) (h : env.fault = DbFault.ok) :
    operationCount (get_book inst env st book_id).1.metrics "get"
      = (if inst.book_operations_counter then 1 else 0) ∧
    (∀ b, st.findBook book_id = some b →
        (get_book inst env st book_id).1.status = 200 ∧
        (get_book inst env st book_id).1.body = serialise_book b) ∧
    (st.findBook book_id = none →
        (get_book inst env st book_id).1.status = 404 ∧
        (get_book inst env st book_id).1.body = notFoundBody) := by
  unfold get_book get_db_connection execute_query
  cases hfb : st.findBook book_id <;>
    simp [h, hfb, operationCount, List.filter_append, recordOperation,
          recordError, mkLabels, dictMerge, dictInsert, dictGet, BASE_LABELS] <;>
    split_ifs <;>
    simp

/-- Witness for C7 in the not-found case: one recorded "get" operation and a
404. -/
theorem get_book_always_records_get_witness :
    operationCount (get_book allInstruments ⟨DbFault.ok, 1, 2, "ts", "e"⟩
        ⟨[], 1⟩ 7).1.metrics "get" = 1 ∧
    (get_book allInstruments ⟨DbFault.ok, 1, 2, "ts", "e"⟩
        ⟨[], 1⟩ 7).1.status = 404 := by
  have h := get_book_always_records_get allInstruments ⟨DbFault.ok, 1, 2, "ts", "e"⟩
    ⟨[], 1⟩ 7 rfl
  exact ⟨by rw [h.1]; rfl, (h.2.2 rfl).1⟩

/-! Fault injection reaches only the read endpoints. -/

theorem injFree_recordError (inst : Instruments) (t r m : String) (s : ℕ) :
    ((recordError inst t r s m).all (fun e => !(isInjectionMetric e))) = true := by
  unfold recordError
  split <;> simp [isInjectionMetric]

theorem injFree_recordOperation (inst : Instruments) (op r m : String) :
    ((recordOperation inst op r m).all (fun e => !(isInjectionMetric e))) = true := by
  unfold recordOperation
  split <;> simp [isInjectionMetric]

theorem injFree_conn (inst : Instruments) (env : DbEnv) (path : String) :
    (((get_db_connection inst env path).1).all (fun e => !(isInjectionMetric e))) = true := by
  unfold get_db_connection
  split <;> (try split) <;> (try split) <;> simp [isInjectionMetric]

theorem injFree_query (inst : Instruments) (env : DbEnv) (op : String) :
    (((execute_query inst env op).1).all (fun e => !(isInjectionMetric e))) = true := by
  unfold execute_query
  split <;> (try split) <;> (try split) <;> simp [isInjectionMetric]

theorem injFree_create (inst : Instruments) (env : DbEnv) (st : DbState)
    (data : JsonVal) :
    (((create_book inst env st data).1.metrics).all (fun e => !(isInjectionMetric e))) = true := by
  unfold create_book
  rcases hfm : firstMissing data required_fields with e | mf
  · simp [hfm, injFree_recordError]
  · rcases mf with _ | f
    · simp only [hfm]
      by_cases hcf : (get_db_connection inst env "/books").2
      · simp only [hcf, if_true]
        rcases hca : createArgs data with e | ⟨t, a, i, d, p⟩
        · simp [hca, List.all_append, injFree_conn, injFree_recordError]
        · simp only [hca]
          rcases hq : (execute_query inst env "insert").2 <;>
            simp [hq, List.all_append, injFree_conn, injFree_query,
                  injFree_recordError, injFree_recordOperation]
      · simp [hcf, List.all_append, injFree_conn, injFree_recordError]
    · simp [hfm, injFree_recordError]

theorem injFree_update (inst : Instruments) (env : DbEnv) (st : DbState)
    (book_id : ℤ) (data : JsonVal) :
    (((update_book inst env st book_id data).1.metrics).all
      (fun e => !(isInjectionMetric e))) = true := by
  unfold update_book
  rcases hcu : collectUpdates data required_fields with e | us
  · simp [hcu, injFree_recordError]
  · rcases us with _ | ⟨u, us⟩
    · simp [hcu, injFree_recordError]
    · simp only [hcu]
      by_cases hcf : (get_db_connection inst env ("/books/" ++ toString book_id)).2
      · simp only [hcf, if_true]
        rcases hq : (execute_query inst env "update").2
        · rcases hr : (st.updateBook book_id (u :: us) env.now).1 <;>
            simp [hq, hr, List.all_append, injFree_conn, injFree_query,
                  injFree_recordOperation]
        · simp [hq, List.all_append, injFree_conn, injFree_query, injFree_recordError]
        · simp [hq, List.all_append, injFree_conn, injFree_query, injFree_recordError]
      · simp [hcf, List.all_append, injFree_conn, injFree_recordError]

theorem injFree_delete (inst : Instruments) (env : DbEnv) (st : DbState)
    (book_id : ℤ) :
    (((delete_book inst env st book_id).1.metrics).all
      (fun e => !(isInjectionMetric e))) = true := by
  unfold delete_book
  by_cases hcf : (get_db_connection inst env ("/books/" ++ toString book_id)).2
  · simp only [hcf, if_true]
    rcases hq : (execute_query inst env "delete").2
    · rcases hr : (st.deleteBook book_id).1 <;>
        simp [hq, hr, List.all_append, injFree_conn, injFree_query,
              injFree_recordOperation]
    · simp [hq, List.all_append, injFree_conn, injFree_query, injFree_recordError]
    · simp [hq, List.all_append, injFree_conn, injFree_query, injFree_recordError]
  · simp [hcf, List.all_append, injFree_conn, injFree_recordError]

/-- C3: fault injection is wired exactly to the read-only endpoints — the
write endpoints (create, update, delete) never take a delay and never emit a
fault-injection metric, while each of the four read endpoints takes a delay
exactly when the uniform draw is below the configured probability. -/
theorem fault_injection_asymmetry (cfg : FaultConfig) (inst : Instruments)
    (o : RandOracle) (env : DbEnv) (st : DbState) :
    (∀ data, (handle cfg inst o env st (Request.createBook data)).delay = none ∧
        ((allMetrics (handle cfg inst o env st (Request.createBook data))).all
          (fun e => !(isInjectionMetric e))) = true) ∧
    (∀ id data, (handle cfg inst o env st (Request.updateBook id data)).delay = none ∧
        ((allMetrics (handle cfg inst o env st (Request.updateBook id data))).all
          (fun e => !(isInjectionMetric e))) = true) ∧
    (∀ id, (handle cfg inst o env st (Request.deleteBook id)).delay = none ∧
        ((allMetrics (handle cfg inst o env st (Request.deleteBook id))).all
          (fun e => !(isInjectionMetric e))) = true) ∧
    ((handle cfg inst o env st Request.healthz).delay.isSome ↔ o.r < cfg.prob) ∧
    ((handle cfg inst o env st Request.test).delay.isSome ↔ o.r < cfg.prob) ∧
    ((handle cfg inst o env st Request.listBooks).delay.isSome ↔ o.r < cfg.prob) ∧
    (∀ id, (handle cfg inst o env st (Request.getBook id)).delay.isSome ↔ o.r < cfg.prob) := by
  refine ⟨fun data => ⟨rfl, ?_⟩, fun id data => ⟨rfl, ?_⟩, fun id => ⟨rfl, ?_⟩,
          ?_, ?_, ?_, fun id => ?_⟩
  · simpa [handle, allMetrics] using injFree_create inst env st data
  · simpa [handle, allMetrics] using injFree_update inst env st id data
  · simpa [handle, allMetrics] using injFree_delete inst env st id
  all_goals
    unfold handle maybe_delay
    by_cases h : o.r < cfg.prob <;> simp [h]

/-- Witness for C3 at concrete inputs: a DELETE is never delayed, a GET with
a draw of 0 is delayed. -/
theorem fault_injection_asymmetry_witness :
    (handle defaultFaultConfig allInstruments ⟨0, 0⟩
      ⟨DbFault.ok, 1, 2, "ts", "e"⟩ ⟨[], 1⟩ (Request.deleteBook 3)).delay = none ∧
    ((handle defaultFaultConfig allInstruments ⟨0, 0⟩
      ⟨DbFault.ok, 1, 2, "ts", "e"⟩ ⟨[], 1⟩ Request.listBooks).delay.isSome ↔
        (0 : ℚ) < defaultFaultConfig.prob) :=
  ⟨((fault_injection_asymmetry defaultFaultConfig allInstruments ⟨0, 0⟩
      ⟨DbFault.ok, 1, 2, "ts", "e"⟩ ⟨[], 1⟩).2.2.1 3).1,
   (fault_injection_asymmetry defaultFaultConfig allInstruments ⟨0, 0⟩
      ⟨DbFault.ok, 1, 2, "ts", "e"⟩ ⟨[], 1⟩).2.2.2.2.2.1⟩

/-! Telemetry availability never affects request outcome: per-handler
outcome-independence from the instrument set, and emptiness of every metric
emission when no instrument is initialized. -/

theorem health_check_outcome_inst (inst : Instruments) (env : DbEnv) :
    (health_check inst env).status = (health_check allInstruments env).status ∧
    (health_check inst env).body = (health_check allInstruments env).body ∧
    (health_check inst env).trace = (health_check allInstruments env).trace := by
  obtain ⟨fault, cm, qm, nw, msg⟩ := env
  cases fault <;> simp [health_check, get_db_connection, execute_query]

theorem health_check_metrics_none (env : DbEnv) :
    (health_check noInstruments env).metrics = [] := by
  obtain ⟨fault, cm, qm, nw, msg⟩ := env
  cases fault <;>
    simp [health_check, get_db_connection, execute_query, recordError, noInstruments]

theorem get_books_outcome_inst (inst : Instruments) (env : DbEnv) (st : DbState) :
    (get_books inst env st).1.status = (get_books allInstruments env st).1.status ∧
    (get_books inst env st).1.body = (get_books allInstruments env st).1.body ∧
    (get_books inst env st).1.trace = (get_books allInstruments env st).1.trace ∧
    (get_books inst env st).2 = (get_books allInstruments env st).2 := by
  obtain ⟨fault, cm, qm, nw, msg⟩ := env
  cases fault <;> simp [get_books, get_db_connection, execute_query]

theorem get_books_metrics_none (env : DbEnv) (st : DbState) :
    (get_books noInstruments env st).1.metrics = [] := by
  obtain ⟨fault, cm, qm, nw, msg⟩ := env
  cases fault <;>
    simp [get_books, get_db_connection, execute_query, recordError,
          recordOperation, noInstruments]

theorem get_book_outcome_inst (inst : Instruments) (env : DbEnv) (st : DbState)
    (book_id : ℤ) :
    (get_book inst env st book_id).1.status = (get_book allInstruments env st book_id).1.status ∧
    (get_book inst env st book_id).1.body = (get_book allInstruments env st book_id).1.body ∧
    (get_book inst env st book_id).1.trace = (get_book allInstruments env st book_id).1.trace ∧
    (get_book inst env st book_id).2 = (get_book allInstruments env st book_id).2 := by
  obtain ⟨fault, cm, qm, nw, msg⟩ := env
  cases fault <;> cases hfb : st.findBook book_id <;>
    simp [get_book, get_db_connection, execute_query, hfb]

theorem get_book_metrics_none (env : DbEnv) (st : DbState) (book_id : ℤ) :
    (get_book noInstruments env st book_id).1.metrics = [] := by
  obtain ⟨fault, cm, qm, nw, msg⟩ := env
  cases fault <;> cases hfb : st.findBook book_id <;>
    simp [get_book, get_db_connection, execute_query, recordError,
          recordOperation, noInstruments, hfb]

theorem create_book_outcome_inst (inst : Instruments) (env : DbEnv) (st : DbState)
    (data : JsonVal) :
    (create_book inst env st data).1.status = (create_book allInstruments env st data).1.status ∧
    (create_book inst env st data).1.body = (create_book allInstruments env st data).1.body ∧
    (create_book inst env st data).1.trace = (create_book allInstruments env st data).1.trace ∧
    (create_book inst env st data).2 = (create_book allInstruments env st data).2 := by
  obtain ⟨fault, cm, qm, nw, msg⟩ := env
  rcases hfm : firstMissing data required_fields with e | mf
  · simp [create_book, hfm]
  · rcases mf with _ | f
    · rcases hca : createArgs data with e | ⟨t, a, i, d, p⟩ <;>
        cases fault <;>
        simp [create_book, hfm, hca, get_db_connection, execute_query]
    · simp [create_book, hfm]

theorem create_book_metrics_none (env : DbEnv) (st : DbState) (data : JsonVal) :
    (create_book noInstruments env st data).1.metrics = [] := by
  obtain ⟨fault, cm, qm, nw, msg⟩ := env
  rcases hfm : firstMissing data required_fields with e | mf
  · simp [create_book, hfm, recordError, noInstruments]
  · rcases mf with _ | f
    · rcases hca : createArgs data with e | ⟨t, a, i, d, p⟩ <;>
        cases fault <;>
        simp [create_book, hfm, hca, get_db_connection, execute_query,
              recordError, recordOperation, noInstruments]
    · simp [create_book, hfm, recordError, noInstruments]

theorem update_book_outcome_inst (inst : Instruments) (env : DbEnv) (st : DbState)
    (book_id : ℤ) (data : JsonVal) :
    (update_book inst env st book_id data).1.status
      = (update_book allInstruments env st book_id data).1.status ∧
    (update_book inst env st book_id data).1.body
      = (update_book allInstruments env st book_id data).1.body ∧
    (update_book inst env st book_id data).1.trace
      = (update_book allInstruments env st book_id data).1.trace ∧
    (update_book inst env st book_id data).2
      = (update_book allInstruments env st book_id data).2 := by
  obtain ⟨fault, cm, qm, nw, msg⟩ := env
  rcases hcu : collectUpdates data required_fields with e | us
  · simp [update_book, hcu]
  · rcases us with _ | ⟨u, us⟩
    · simp [update_book, hcu]
    · cases fault <;>
        rcases hr : (st.updateBook book_id (u :: us) nw).1 <;>
        simp [update_book, hcu, get_db_connection, execute_query, hr]

theorem update_book_metrics_none (env : DbEnv) (st : DbState) (book_id : ℤ)
    (data : JsonVal) :
    (update_book noInstruments env st book_id data).1.metrics = [] := by
  obtain ⟨fault, cm, qm, nw, msg⟩ := env
  rcases hcu : collectUpdates data required_fields with e | us
  · simp [update_book, hcu, recordError, noInstruments]
  · rcases us with _ | ⟨u, us⟩
    · simp [update_book, hcu, recordError, noInstruments]
    · cases fault <;>
        rcases hr : (st.updateBook book_id (u :: us) nw).1 <;>
        simp [update_book, hcu, get_db_connection, execute_query, hr,
              recordError, recordOperation, noInstruments]

theorem delete_book_outcome_inst (inst : Instruments) (env : DbEnv) (st : DbState)
    (book_id : ℤ) :
    (delete_book inst env st book_id).1.status
      = (delete_book allInstruments env st book_id).1.status ∧
    (delete_book inst env st book_id).1.body
      = (delete_book allInstruments env st book_id).1.body ∧
    (delete_book inst env st book_id).1.trace
      = (delete_book allInstruments env st book_id).1.trace ∧
    (delete_book inst env st book_id).2
      = (delete_book allInstruments env st book_id).2 := by
  obtain ⟨fault, cm, qm, nw, msg⟩ := env
  cases fault <;>
    rcases hr : (st.deleteBook book_id).1 <;>
    simp [delete_book, get_db_connection, execute_query, hr]

theorem delete_book_metrics_none (env : DbEnv) (st : DbState) (book_id : ℤ) :
    (delete_book noInstruments env st book_id).1.metrics = [] := by
  obtain ⟨fault, cm, qm, nw, msg⟩ := env
  cases fault <;>
    rcases hr : (st.deleteBook book_id).1 <;>
    simp [delete_book, get_db_connection, execute_query, hr,
          recordError, recordOperation, noInstruments]

/-- C5: with the meter null and every instrument None, every metric emission
is a no-op (the request emits an empty event list), and the response status,
body, resulting database state and injected delay are identical to those
produced with telemetry initialized, for the same inputs and random draws. -/
theorem telemetry_never_affects_outcome (cfg : FaultConfig) (o : RandOracle)
    (env : DbEnv) (st : DbState) (req : Request) :
    allMetrics (handle cfg noInstruments o env st req) = [] ∧
    (handle cfg noInstruments o env st req).result.1.status
      = (handle cfg allInstruments o env st req).result.1.status ∧
    (handle cfg noInstruments o env st req).result.1.body
      = (handle cfg allInstruments o env st req).result.1.body ∧
    (handle cfg noInstruments o env st req).result.2
      = (handle cfg allInstruments o env st req).result.2 ∧
    (handle cfg noInstruments o env st req).delay
      = (handle cfg allInstruments o env st req).delay := by
  cases req with
  | healthz =>
      unfold handle maybe_delay allMetrics
      by_cases h : o.r < cfg.prob <;>
        simp [h, show noInstruments.latency_injection_counter = false from rfl,
              show noInstruments.latency_injection_duration = false from rfl,
              health_check_metrics_none,
              health_check_outcome_inst noInstruments env]
  | test =>
      unfold handle maybe_delay allMetrics
      by_cases h : o.r < cfg.prob <;>
        simp [h, show noInstruments.latency_injection_counter = false from rfl,
              show noInstruments.latency_injection_duration = false from rfl,
              test_endpoint]
  | listBooks =>
      unfold handle maybe_delay allMetrics
      by_cases h : o.r < cfg.prob <;>
        simp [h, show noInstruments.latency_injection_counter = false from rfl,
              show noInstruments.latency_injection_duration = false from rfl,
              get_books_metrics_none,
              get_books_outcome_inst noInstruments env st]
  | getBook id =>
      unfold handle maybe_delay allMetrics
      by_cases h : o.r < cfg.prob <;>
        simp [h, show noInstruments.latency_injection_counter = false from rfl,
              show noInstruments.latency_injection_duration = false from rfl,
              get_book_metrics_none,
              get_book_outcome_inst noInstruments env st id]
  | createBook data =>
      unfold handle allMetrics
      simp [create_book_metrics_none,
            create_book_outcome_inst noInstruments env st data]
  | updateBook id data =>
      unfold handle allMetrics
      simp [update_book_metrics_none,
            update_book_outcome_inst noInstruments env st id data]
  | deleteBook id =>
      unfold handle allMetrics
      simp [delete_book_metrics_none,
            delete_book_outcome_inst noInstruments env st id]

/-! Classified error metrics on non-2xx responses. -/

theorem fullErrorCount_append (a b : List MetricEvent) :
    fullErrorCount (a ++ b) = fullErrorCount a + fullErrorCount b := by
  simp [fullErrorCount, List.filter_append]

theorem fullErrorCount_injMetrics {α β : Type} (cfg : FaultConfig)
    (inst : Instruments) (o : RandOracle) (p m : String) (f : α → β) (x : α) :
    fullErrorCount (maybe_delay cfg inst o p m f x).injMetrics = 0 := by
  unfold maybe_delay
  by_cases h : o.r < cfg.prob <;>
    simp [h] <;> (try split) <;> (try split) <;>
    simp [fullErrorCount, isFullError]

theorem maybe_delay_result_aux {α β : Type} (cfg : FaultConfig)
    (inst : Instruments) (o : RandOracle) (p m : String) (f : α → β) (x : α) :
    (maybe_delay cfg inst o p m f x).result = f x := by
  unfold maybe_delay
  by_cases h : o.r < cfg.prob <;> simp [h]

theorem c1_health (env : DbEnv)
    (h : is2xx (health_check allInstruments env).status = false) :
    fullErrorCount (health_check allInstruments env).metrics
      = if isBookNotFound (health_check allInstruments env) then 0 else 1 := by
  revert h
  obtain ⟨fault, cm, qm, nw, msg⟩ := env
  cases fault <;>
    simp [health_check, get_db_connection, execute_query, is2xx, isBookNotFound,
          fullErrorCount, isFullError, recordError, allInstruments,
          mkLabels, dictMerge, dictInsert, dictGet, BASE_LABELS]

theorem c1_get_books (env : DbEnv) (st : DbState)
    (h : is2xx (get_books allInstruments env st).1.status = false) :
    fullErrorCount (get_books allInstruments env st).1.metrics
      = if isBookNotFound (get_books allInstruments env st).1 then 0 else 1 := by
  revert h
  obtain ⟨fault, cm, qm, nw, msg⟩ := env
  cases fault <;>
    simp [get_books, get_db_connection, execute_query, is2xx, isBookNotFound,
          fullErrorCount, isFullError, recordError, recordOperation, allInstruments,
          mkLabels, dictMerge, dictInsert, dictGet, BASE_LABELS]

theorem c1_get_book (env : DbEnv) (st : DbState) (book_id : ℤ)
    (h : is2xx (get_book allInstruments env st book_id).1.status = false) :
    fullErrorCount (get_book allInstruments env st book_id).1.metrics
      = if isBookNotFound (get_book allInstruments env st book_id).1 then 0 else 1 := by
  revert h
  obtain ⟨fault, cm, qm, nw, msg⟩ := env
  cases fault <;> cases hfb : st.findBook book_id <;>
    simp [get_book, get_db_connection, execute_query, hfb, is2xx, isBookNotFound,
          notFoundBody, fullErrorCount, isFullError, recordError, recordOperation,
          allInstruments, mkLabels, dictMerge, dictInsert, dictGet, BASE_LABELS]

theorem c1_create (env : DbEnv) (st : DbState) (data : JsonVal)
    (h : is2xx (create_book allInstruments env st data).1.status = false) :
    fullErrorCount (create_book allInstruments env st data).1.metrics
      = if isBookNotFound (create_book allInstruments env st data).1 then 0 else 1 := by
  revert h
  obtain ⟨fault, cm, qm, nw, msg⟩ := env
  rcases hfm : firstMissing data required_fields with e | mf
  · simp [create_book, hfm, is2xx, isBookNotFound, fullErrorCount, isFullError,
          recordError, allInstruments, mkLabels, dictMerge, dictInsert, dictGet,
          BASE_LABELS]
  · rcases mf with _ | f
    · rcases hca : createArgs data with e | ⟨t, a, i, d, p⟩ <;>
        cases fault <;>
        simp [create_book, hfm, hca, get_db_connection, execute_query, is2xx,
              isBookNotFound, fullErrorCount, isFullError, recordError,
              recordOperation, allInstruments, mkLabels, dictMerge, dictInsert,
              dictGet, BASE_LABELS]
    · simp [create_book, hfm, is2xx, isBookNotFound, fullErrorCount, isFullError,
            recordError, allInstruments, mkLabels, dictMerge, dictInsert, dictGet,
            BASE_LABELS]

theorem c1_update (env : DbEnv) (st : DbState) (book_id : ℤ) (data : JsonVal)
    (h : is2xx (update_book allInstruments env st book_id data).1.status = false) :
    fullErrorCount (update_book allInstruments env st book_id data).1.metrics
      = if isBookNotFound (update_book allInstruments env st book_id data).1 then 0 else 1 := by
  revert h
  obtain ⟨fault, cm, qm, nw, msg⟩ := env
  rcases hcu : collectUpdates data required_fields with e | us
  · simp [update_book, hcu, is2xx, isBookNotFound, fullErrorCount, isFullError,
          recordError, allInstruments, mkLabels, dictMerge, dictInsert, dictGet,
          BASE_LABELS]
  · rcases us with _ | ⟨u, us⟩
    · simp [update_book, hcu, is2xx, isBookNotFound, fullErrorCount, isFullError,
            recordError, allInstruments, mkLabels, dictMerge, dictInsert, dictGet,
            BASE_LABELS]
    · cases fault <;>
        rcases hr : (st.updateBook book_id (u :: us) nw).1 <;>
        simp [update_book, hcu, hr, get_db_connection, execute_query, is2xx,
              isBookNotFound, notFoundBody, fullErrorCount, isFullError,
              recordError, recordOperation, allInstruments, mkLabels, dictMerge,
              dictInsert, dictGet, BASE_LABELS]

theorem c1_delete (env : DbEnv) (st : DbState) (book_id : ℤ)
    (h : is2xx (delete_book allInstruments env st book_id).1.status = false) :
    fullErrorCount (delete_book allInstruments env st book_id).1.metrics
      = if isBookNotFound (delete_book allInstruments env st book_id).1 then 0 else 1 := by
  revert h
  obtain ⟨fault, cm, qm, nw, msg⟩ := env
  cases fault <;>
    rcases hr : (st.deleteBook book_id).1 <;>
    simp [delete_book, hr, get_db_connection, execute_query, is2xx,
          isBookNotFound, notFoundBody, fullErrorCount, isFullError,
          recordError, recordOperation, allInstruments, mkLabels, dictMerge,
          dictInsert, dictGet, BASE_LABELS]

/-- C1 (amended): for every request handled by any route whose response is
not 2xx, exactly one application error-count metric carrying the error type,
route, method and status-code labels is emitted before returning — except
the 404 Book-not-found responses of get-by-id, update and delete, which
emit no error-count metric (they record only an operation count).  (On a
connection failure the connection helper additionally emits one `app.errors`
event labelled with only the error type and the request path; it carries no
method or status-code label and so is not a classified error-count metric
in the claim's sense.) -/
theorem non2xx_emits_classified_error_metric (cfg : FaultConfig) (o : RandOracle)
    (env : DbEnv) (st : DbState) (req : Request)
    (h : is2xx (handle cfg allInstruments o env st req).result.1.status = false) :
    fullErrorCount (allMetrics (handle cfg allInstruments o env st req))
      = (if isBookNotFound (handle cfg allInstruments o env st req).result.1
          then 0 else 1) := by
  cases req with
  | healthz =>
      rw [show handle cfg allInstruments o env st Request.healthz =
            maybe_delay cfg allInstruments o "/healthz" "GET"
              (fun _ => (health_check allInstruments env, st)) () from rfl,
          maybe_delay_result_aux] at h ⊢
      rw [allMetrics, fullErrorCount_append, fullErrorCount_injMetrics,
          maybe_delay_result_aux]
      simpa using c1_health env (by simpa using h)
  | test =>
      rw [show handle cfg allInstruments o env st Request.test =
            maybe_delay cfg allInstruments o "/test" "GET"
              (fun _ => (test_endpoint, st)) () from rfl,
          maybe_delay_result_aux] at h
      simp [test_endpoint, is2xx] at h
  | listBooks =>
      rw [show handle cfg allInstruments o env st Request.listBooks =
            maybe_delay cfg allInstruments o "/books" "GET"
              (fun _ => get_books allInstruments env st) () from rfl,
          maybe_delay_result_aux] at h ⊢
      rw [allMetrics, fullErrorCount_append, fullErrorCount_injMetrics,
          maybe_delay_result_aux]
      simpa using c1_get_books env st (by simpa using h)
  | getBook id =>
      rw [show handle cfg allInstruments o env st (Request.getBook id) =
            maybe_delay cfg allInstruments o ("/books/" ++ toString id) "GET"
              (fun _ => get_book allInstruments env st id) () from rfl,
          maybe_delay_result_aux] at h ⊢
      rw [allMetrics, fullErrorCount_append, fullErrorCount_injMetrics,
          maybe_delay_result_aux]
      simpa using c1_get_book env st id (by simpa using h)
  | createBook data =>
      simpa [handle, allMetrics] using c1_create env st data (by simpa [handle] using h)
  | updateBook id data =>
      simpa [handle, allMetrics] using c1_update env st id data (by simpa [handle] using h)
  | deleteBook id =>
      simpa [handle, allMetrics] using c1_delete env st id (by simpa [handle] using h)

/-- C1 counterexample: a GET of an absent book id returns 404 — a non-2xx
response — yet emits no `app.errors` event at all, with all instruments
initialized. -/
theorem non2xx_error_metric_counterexample :
    is2xx (get_book allInstruments ⟨DbFault.ok, 1, 2, "ts", "e"⟩ ⟨[], 1⟩ 7).1.status = false ∧
    (get_book allInstruments ⟨DbFault.ok, 1, 2, "ts", "e"⟩ ⟨[], 1⟩ 7).1.status = 404 ∧
    ((get_book allInstruments ⟨DbFault.ok, 1, 2, "ts", "e"⟩ ⟨[], 1⟩ 7).1.metrics.filter
      (fun e => e.name = "app.errors")).length = 0 := by
  refine ⟨rfl, rfl, ?_⟩
  rfl

/-- Witness for the amended C1: a failing select on the list route yields a
non-2xx response with exactly one classified error metric. -/
theorem non2xx_emits_classified_error_metric_witness :
    is2xx (handle defaultFaultConfig allInstruments ⟨1, 0⟩
        ⟨DbFault.queryFail, 1, 2, "ts", "e"⟩ ⟨[], 1⟩ Request.listBooks).result.1.status = false ∧
    fullErrorCount (allMetrics (handle defaultFaultConfig allInstruments ⟨1, 0⟩
        ⟨DbFault.queryFail, 1, 2, "ts", "e"⟩ ⟨[], 1⟩ Request.listBooks)) = 1 := by
  have hr : ¬ ((1 : ℚ) < defaultFaultConfig.prob) := by
    norm_num [defaultFaultConfig]
  have hh : handle defaultFaultConfig allInstruments ⟨1, 0⟩
      ⟨DbFault.queryFail, 1, 2, "ts", "e"⟩ ⟨[], 1⟩ Request.listBooks
      = ⟨none, [], get_books allInstruments ⟨DbFault.queryFail, 1, 2, "ts", "e"⟩ ⟨[], 1⟩⟩ := by
    simp [handle, maybe_delay, hr]
  have h2 : is2xx (handle defaultFaultConfig allInstruments ⟨1, 0⟩
      ⟨DbFault.queryFail, 1, 2, "ts", "e"⟩ ⟨[], 1⟩ Request.listBooks).result.1.status = false := by
    rw [hh]
    rfl
  have h := non2xx_emits_classified_error_metric defaultFaultConfig ⟨1, 0⟩
    ⟨DbFault.queryFail, 1, 2, "ts", "e"⟩ ⟨[], 1⟩ Request.listBooks h2
  refine ⟨h2, ?_⟩
  rw [h, hh]
  rfl
